import Mathlib

/-!
Verification of the `nest-learning` backend against its specification.

The definitions below are a shallow embedding of the TypeScript sources:

* `src/common/middleware/rate-limit.middleware.ts` (rate limiter)
* `src/common/guards/roles.guard.ts` (role authorization)
* `src/users/users.service.ts` and the auth service / passport strategies
* `products.service.ts` (filtering, sorting, pagination, stock, discount)

JavaScript numbers are modelled as `Nat`/`Int`/`ℚ` (all values involved are
exact in double precision at the relevant magnitudes); thrown exceptions are
modelled with `Except`; the mutable database is passed explicitly as a list,
with a state-returning pair `(db', result)` for mutating operations so that
"throw before write leaves the store unchanged" is expressible.
-/

set_option maxRecDepth 8192

namespace NestLearning

/-- JavaScript `Math.ceil(a / b)` for integers `a` and `b > 0` (the float
division in the source is exact at the magnitudes involved), computed with
integer arithmetic so that the kernel can evaluate it.
`mathCeilDiv_eq_ceil` certifies that this is the exact rational ceiling. -/
def mathCeilDiv (a b : Int) : Int := -((-a) / b)

/-- `mathCeilDiv` is the rational ceiling `⌈a / b⌉` for a natural divisor. -/
theorem mathCeilDiv_eq_ceil (a : Int) (b : Nat) :
    mathCeilDiv a (b : Int) = ⌈(a : ℚ) / (b : ℚ)⌉ := by
  rw [mathCeilDiv,
    show ((-a) / (b : Int)) = ⌊((-a : ℤ) : ℚ) / ((b : ℕ) : ℚ)⌋ from
      (Rat.floor_intCast_div_natCast (-a) b).symm,
    show ((-a : ℤ) : ℚ) / ((b : ℕ) : ℚ) = -((a : ℚ) / (b : ℚ)) by push_cast; ring,
    Int.floor_neg, neg_neg]

/-! ## Rate limiter (`rate-limit.middleware.ts`) -/

/-- `windowMs = 60 * 1000` from the middleware configuration. -/
def windowMs : Nat := 60 * 1000

/-- `maxRequests = 100` from the middleware configuration. -/
def maxRequests : Nat := 100

/-- `RateLimitRecord { count, firstRequest }`; `firstRequest` is a
millisecond timestamp. -/
structure RateLimitRecord where
  count : Nat
  firstRequest : Nat
deriving Repr, DecidableEq

/-- One update of the per-client record, exactly the branch structure of
`RateLimitMiddleware.use`: no record creates `{count := 1, firstRequest := now}`;
an expired window (`now - firstRequest > windowMs`, with JS negative
differences behaving like the truncated `Nat` subtraction since both are
`not >`) resets; otherwise the count is incremented. -/
def rlStep : Option RateLimitRecord → Nat → RateLimitRecord
  | none, now => { count := 1, firstRequest := now }
  | some r, now =>
      if now - r.firstRequest > windowMs then
        { count := 1, firstRequest := now }
      else
        { count := r.count + 1, firstRequest := r.firstRequest }

/-- `Math.ceil((record.firstRequest + this.windowMs - now) / 1000)`, the
`retryAfter` computed on the deny path. -/
def rlRetryAfter (r : RateLimitRecord) (now : Nat) : Int :=
  mathCeilDiv ((r.firstRequest : Int) + (windowMs : Int) - (now : Int)) 1000

/-- Outcome of one request: `allowed = false` means the middleware threw the
429 `HttpException`; `retryAfter` is the value it would carry (the source only
computes it on the deny path, it is materialised here unconditionally). -/
structure RlResponse where
  allowed : Bool
  retryAfter : Int
deriving Repr, DecidableEq

/-- One call of `RateLimitMiddleware.use` for a fixed client: updated record
plus the response.  The request is denied iff `record.count > maxRequests`. -/
def rlUse (s : Option RateLimitRecord) (now : Nat) : RateLimitRecord × RlResponse :=
  let r := rlStep s now
  (r, { allowed := decide (r.count ≤ maxRequests), retryAfter := rlRetryAfter r now })

/-- Responses of a sequence of requests from one client, threading the stored
record through `rlUse`. -/
def rlResponses : Option RateLimitRecord → List Nat → List RlResponse
  | _, [] => []
  | s, t :: ts => (rlUse s t).2 :: rlResponses (some (rlUse s t).1) ts

/-- The stored record after a sequence of requests. -/
def rlFinal : Option RateLimitRecord → List Nat → Option RateLimitRecord
  | s, [] => s
  | s, t :: ts => rlFinal (some (rlStep s t)) ts

theorem rlStep_inWindow (k t0 now : Nat) (h1 : t0 ≤ now) (h2 : now ≤ t0 + windowMs) :
    rlStep (some { count := k, firstRequest := t0 }) now
      = { count := k + 1, firstRequest := t0 } := by
  simp only [rlStep]
  have : ¬ now - t0 > windowMs := by omega
  simp [this]

theorem rlFinal_inWindow (ts : List Nat) (k t0 : Nat)
    (h : ∀ t ∈ ts, t0 ≤ t ∧ t ≤ t0 + windowMs) :
    rlFinal (some { count := k, firstRequest := t0 }) ts
      = some { count := k + ts.length, firstRequest := t0 } := by
  induction ts generalizing k with
  | nil => simp [rlFinal]
  | cons t ts ih =>
      have ht := h t (List.mem_cons_self t ts)
      rw [rlFinal, rlStep_inWindow k t0 t ht.1 ht.2,
        ih (k + 1) (fun u hu => h u (List.mem_cons_of_mem t hu))]
      simp only [List.length_cons]
      have h3 : k + 1 + ts.length = k + (ts.length + 1) := by omega
      rw [h3]

theorem rlResponses_append (l1 l2 : List Nat) (s : Option RateLimitRecord) :
    rlResponses s (l1 ++ l2) = rlResponses s l1 ++ rlResponses (rlFinal s l1) l2 := by
  induction l1 generalizing s with
  | nil => simp [rlResponses, rlFinal]
  | cons t ts ih => simp only [List.cons_append, rlResponses, rlFinal, ih, rlUse,
      List.append_eq]

theorem rlResponses_allowed_inWindow (ts : List Nat) (k t0 : Nat)
    (h : ∀ t ∈ ts, t0 ≤ t ∧ t ≤ t0 + windowMs)
    (hcap : k + ts.length ≤ maxRequests) :
    ∀ resp ∈ rlResponses (some { count := k, firstRequest := t0 }) ts,
      resp.allowed = true := by
  induction ts generalizing k with
  | nil => simp [rlResponses]
  | cons t ts ih =>
      intro resp hresp
      have ht := h t (List.mem_cons_self t ts)
      rw [rlResponses] at hresp
      rw [rlUse] at hresp
      rw [rlStep_inWindow k t0 t ht.1 ht.2] at hresp
      rcases List.mem_cons.1 hresp with h1 | h2
      · subst h1
        simp only [List.length_cons] at hcap
        simp only [decide_eq_true_eq]
        omega
      · exact ih (k + 1) (fun u hu => h u (List.mem_cons_of_mem t hu))
          (by simp only [List.length_cons] at hcap; omega) resp h2

theorem mathCeilDiv_pos (x : Int) (hx : 0 < x) : 0 < mathCeilDiv x 1000 := by
  rw [show (1000 : Int) = ((1000 : Nat) : Int) from rfl, mathCeilDiv_eq_ceil, Int.ceil_pos]
  have hq : (0 : ℚ) < (x : ℚ) := by exact_mod_cast hx
  exact div_pos hq (by norm_num)

/-- C1 (amended).  A client issuing exactly `maxRequests = 100` requests whose
times all lie in `[t0, t0 + windowMs]` is allowed on every one of them; a
further request at a time `tlast` strictly before the window's end
`t0 + windowMs` is denied, with `retryAfter` computed as
`Math.ceil((windowStart + windowMs - now) / 1000)`, and that value is strictly
positive.  (At `tlast = t0 + windowMs` exactly the request is still counted in
the same window and denied, but `retryAfter = 0`; see the counterexample.) -/
theorem rateLimiter_cap_allows_then_denies (t0 tlast : Nat) (ts : List Nat)
    (hlen : (t0 :: ts).length = maxRequests)
    (hwin : ∀ t ∈ t0 :: ts, t0 ≤ t ∧ t ≤ t0 + windowMs)
    (hlo : t0 ≤ tlast) (hhi : tlast < t0 + windowMs) :
    (∀ resp ∈ rlResponses none (t0 :: ts), resp.allowed = true) ∧
    rlResponses none ((t0 :: ts) ++ [tlast])
      = rlResponses none (t0 :: ts)
        ++ [{ allowed := false,
              retryAfter := mathCeilDiv ((t0 : Int) + (windowMs : Int) - (tlast : Int)) 1000 }] ∧
    0 < mathCeilDiv ((t0 : Int) + (windowMs : Int) - (tlast : Int)) 1000 := by
  have hts : ts.length = maxRequests - 1 := by
    simp only [List.length_cons] at hlen
    omega
  have hfirst : rlUse none t0 = ({ count := 1, firstRequest := t0 },
      { allowed := true, retryAfter := rlRetryAfter { count := 1, firstRequest := t0 } t0 }) := by
    simp [rlUse, rlStep, maxRequests]
  refine ⟨?_, ?_, ?_⟩
  · intro resp hresp
    rw [rlResponses, hfirst] at hresp
    rcases List.mem_cons.1 hresp with h1 | h2
    · rw [h1]
    · exact rlResponses_allowed_inWindow ts 1 t0
        (fun u hu => hwin u (List.mem_cons_of_mem t0 hu))
        (by rw [hts]; simp [maxRequests]) resp h2
  · rw [rlResponses_append]
    congr 1
    have hfin : rlFinal none (t0 :: ts) = some { count := maxRequests, firstRequest := t0 } := by
      rw [rlFinal, rlStep, rlFinal_inWindow ts 1 t0
        (fun u hu => hwin u (List.mem_cons_of_mem t0 hu))]
      rw [hts]
      simp [maxRequests]
    rw [hfin, rlResponses, rlResponses, rlUse,
      rlStep_inWindow maxRequests t0 tlast hlo (le_of_lt hhi)]
    simp [rlRetryAfter, maxRequests]
  · apply mathCeilDiv_pos
    omega

theorem rateLimiter_cap_allows_then_denies_witness :
    (((0 : Nat) :: List.replicate 99 0).length = maxRequests ∧
      (∀ t ∈ (0 : Nat) :: List.replicate 99 0, 0 ≤ t ∧ t ≤ 0 + windowMs) ∧
      (0 : Nat) ≤ 0 ∧ 0 < 0 + windowMs) ∧
    ((∀ resp ∈ rlResponses none ((0 : Nat) :: List.replicate 99 0), resp.allowed = true) ∧
      rlResponses none (((0 : Nat) :: List.replicate 99 0) ++ [0])
        = rlResponses none ((0 : Nat) :: List.replicate 99 0)
          ++ [{ allowed := false,
                retryAfter := mathCeilDiv (((0 : Nat) : Int) + (windowMs : Int) - ((0 : Nat) : Int)) 1000 }] ∧
      0 < mathCeilDiv (((0 : Nat) : Int) + (windowMs : Int) - ((0 : Nat) : Int)) 1000) :=
  ⟨⟨by decide, by decide, by decide, by decide⟩,
    rateLimiter_cap_allows_then_denies 0 0 (List.replicate 99 0)
      (by decide) (by decide) (by decide) (by decide)⟩

/-- C1 (counterexample to the claim as stated).  After 100 requests at time 0
(all allowed), the 101st request at exactly `windowStart + windowMs = 60000`
is still counted in the same window (the stored record becomes
`count = 101, firstRequest = 0`, i.e. no reset happened) and is denied, but
`retryAfter = Math.ceil((0 + 60000 - 60000) / 1000) = 0`, which is not
strictly greater than 0. -/
theorem rateLimiter_boundary_retryAfter_zero :
    (∀ resp ∈ rlResponses none (List.replicate 100 0), resp.allowed = true) ∧
    rlFinal none (List.replicate 100 0) = some { count := 100, firstRequest := 0 } ∧
    rlUse (rlFinal none (List.replicate 100 0)) 60000
      = ({ count := 101, firstRequest := 0 }, { allowed := false, retryAfter := 0 }) := by
  refine ⟨by decide, by decide, by decide⟩

/-! ## Users (`user.entity.ts`, `users.service.ts`) -/

/-- `UserRole` enum from `user.entity.ts`: USER = 'user', ADMIN = 'admin',
MODERATOR = 'moderator'. -/
inductive UserRole where
  | user
  | admin
  | moderator
deriving Repr, DecidableEq

/-- A `User` entity object.  `password` is an `Option` because a TypeScript
object may or may not carry the `password` key: rows loaded without a column
`select` carry `some hash`, while objects built by the password-excluding
`select` lists or by the `{ password: _, ...rest }` destructuring carry
`none`.  The `products` relation is not modelled (no claim depends on it),
and `createdAt`/`updatedAt` are millisecond timestamps. -/
structure User where
  id : Nat
  email : String
  password : Option String
  firstName : String
  lastName : String
  role : UserRole
  isActive : Bool
  phone : Option String
  createdAt : Nat
  updatedAt : Nat
deriving Repr, DecidableEq

/-- Inserts `x` into a list before the first element `y` with `le x y`. -/
def insertLe {α : Type} (le : α → α → Bool) (x : α) : List α → List α
  | [] => [x]
  | y :: ys => if le x y then x :: y :: ys else y :: insertLe le x ys

/-- Insertion sort by a boolean comparison: a deterministic, structurally
recursive model of the database's `ORDER BY` (the SQL order among equal keys
is unspecified; no claim depends on tie order). -/
def sortByLe {α : Type} (le : α → α → Bool) : List α → List α
  | [] => []
  | x :: xs => insertLe le x (sortByLe le xs)

/-- The error taxonomy of the thrown `HttpException` subclasses used by the
services (`NotFoundException` 404, `UnauthorizedException` 401,
`BadRequestException` 400, `ConflictException` 409), with their message. -/
inductive AppError where
  | notFound (msg : String)
  | unauthorized (msg : String)
  | badRequest (msg : String)
  | conflict (msg : String)
deriving Repr, DecidableEq

deriving instance DecidableEq for Except

/-- The `{ password: _, ...userWithoutPassword }` destructuring used by
`UsersService.create` / `UsersService.update` and `AuthService.validateUser`:
every field except `password` is kept. -/
def stripPassword (u : User) : User := { u with password := none }

/-- The `select` list used by `UsersService.findAll` and `UsersService.findOne`:
`[id, email, firstName, lastName, role, isActive, phone, createdAt, updatedAt]`,
i.e. every column except `password`. -/
def selectNonPasswordColumns (u : User) : User := { u with password := none }

/-- `userRepository.findOne({ where: { id } })`. -/
def findUserById (db : List User) (id : Nat) : Option User :=
  db.find? (fun u => u.id == id)

/-- `userRepository.findOne({ where: { email } })`. -/
def findUserByEmail (db : List User) (email : String) : Option User :=
  db.find? (fun u => u.email == email)

/-- `UsersService.findOne`: loads the user by id with the password-excluding
`select` list, throwing `NotFoundException` when no row matches. -/
def UsersService.findOne (db : List User) (id : Nat) : Except AppError User :=
  match findUserById db id with
  | none => .error (.notFound ("User with ID " ++ toString id ++ " not found"))
  | some u => .ok (selectNonPasswordColumns u)

/-- `UsersService.findByEmail`: plain lookup, password included (used for
authentication only). -/
def UsersService.findByEmail (db : List User) (email : String) : Option User :=
  findUserByEmail db email

/-- `UsersService.findAll`: all users, password-excluding `select` list,
ordered by `createdAt` descending. -/
def UsersService.findAll (db : List User) : List User :=
  (sortByLe (fun a b => decide (b.createdAt ≤ a.createdAt)) db).map selectNonPasswordColumns

/-- `CreateUserDto` (`create-user.dto.ts`): required email, password,
firstName, lastName; optional phone and role. -/
structure CreateUserDto where
  email : String
  password : String
  firstName : String
  lastName : String
  phone : Option String
  role : Option UserRole
deriving Repr, DecidableEq

/-- `UsersService.create`: rejects a duplicate email with
`ConflictException`, hashes the password (`hash` stands for the
`bcrypt.hash` platform primitive), saves the entity (the generated id and the
`createdAt`/`updatedAt` timestamps are the `newId`/`now` parameters; `role`
and `isActive` take the entity's column defaults when absent) and returns the
saved user with the password destructured away.  The pair is
`(updated store, thrown-or-returned result)`. -/
def UsersService.create (hash : String → String) (newId now : Nat)
    (db : List User) (dto : CreateUserDto) : List User × Except AppError User :=
  match findUserByEmail db dto.email with
  | some _ => (db, .error (.conflict "Email already exists"))
  | none =>
      let savedUser : User :=
        { id := newId, email := dto.email, password := some (hash dto.password),
          firstName := dto.firstName, lastName := dto.lastName,
          role := dto.role.getD UserRole.user, isActive := true,
          phone := dto.phone, createdAt := now, updatedAt := now }
      (db ++ [savedUser], .ok (stripPassword savedUser))

/-- `UpdateUserDto` (`update-user.dto.ts`): all fields optional; the password
is deliberately absent (handled by a separate endpoint). -/
structure UpdateUserDto where
  email : Option String
  firstName : Option String
  lastName : Option String
  phone : Option String
  role : Option UserRole
  isActive : Option Bool
deriving Repr, DecidableEq

/-- `Object.assign(user, updateUserDto)`: every property present on the DTO
overwrites the entity's property; absent properties are kept. -/
def applyUserUpdate (u : User) (dto : UpdateUserDto) : User :=
  { u with
    email := dto.email.getD u.email,
    firstName := dto.firstName.getD u.firstName,
    lastName := dto.lastName.getD u.lastName,
    phone := match dto.phone with | some p => some p | none => u.phone,
    role := dto.role.getD u.role,
    isActive := dto.isActive.getD u.isActive }

/-- Persists one entity by id (`repository.save` on an entity with an id):
the matching row is replaced, except that a column the entity does not carry
(an undefined `password`) keeps its stored value. -/
def saveUser (db : List User) (u : User) : List User :=
  db.map (fun x => if x.id == u.id then { u with password := x.password } else x)

/-- `UsersService.update`: loads via `findOne` (404 if absent; the loaded
object has no password), checks email uniqueness when a truthy different
email is supplied (`ConflictException`), merges with `Object.assign`, saves,
and returns the result with the password destructured away. -/
def UsersService.update (db : List User) (id : Nat) (dto : UpdateUserDto) :
    List User × Except AppError User :=
  match UsersService.findOne db id with
  | .error e => (db, .error e)
  | .ok user =>
      let merged := applyUserUpdate user dto
      let success := (saveUser db merged, Except.ok (stripPassword merged))
      match dto.email with
      | some e =>
          if e ≠ "" ∧ e ≠ user.email then
            match findUserByEmail db e with
            | some _ => (db, .error (.conflict "Email already in use"))
            | none => success
          else success
      | none => success

/-! ## Auth (`auth.service.ts`, `local.strategy.ts`, `jwt.strategy.ts`) -/

/-- The decoded JWT payload: subject id, email, role. -/
structure JwtPayload where
  sub : Nat
  email : String
  role : UserRole
deriving Repr, DecidableEq

/-- `AuthService.validateUser`: look up by email (`null` when missing), reject
a deactivated account, compare the password with `bcrypt.compare` (the
`compare` parameter stands for that platform primitive; a stored object
without a password cannot match), and on success return the user with the
password destructured away. -/
def AuthService.validateUser (compare : String → String → Bool)
    (db : List User) (email password : String) : Option User :=
  match UsersService.findByEmail db email with
  | none => none
  | some user =>
      if user.isActive = false then none
      else
        match user.password with
        | none => none
        | some hashed =>
            if compare password hashed = false then none
            else some (stripPassword user)

/-- `LocalStrategy.validate`: delegates to `validateUser` and converts `null`
into `UnauthorizedException('Invalid email or password')`. -/
def LocalStrategy.validate (compare : String → String → Bool)
    (db : List User) (email password : String) : Except AppError User :=
  match AuthService.validateUser compare db email password with
  | none => .error (.unauthorized "Invalid email or password")
  | some user => .ok user

/-- `AuthService.validateJwtPayload`: re-fetches the user by the token's
subject id through `UsersService.findOne` on every authenticated request.
`UsersService.findOne` itself throws `NotFoundException` when the user does
not exist, so the strategy's own
`if (!user) throw new UnauthorizedException('User no longer exists')` branch
is unreachable and is not representable here; a deactivated user is rejected
with `UnauthorizedException('User account is deactivated')`. -/
def AuthService.validateJwtPayload (db : List User) (payload : JwtPayload) :
    Except AppError User :=
  match UsersService.findOne db payload.sub with
  | .error e => .error e
  | .ok user =>
      if user.isActive = false then
        .error (.unauthorized "User account is deactivated")
      else
        .ok user

/-- A deactivated stored user, for concrete evaluations. -/
def inactiveAlice : User :=
  { id := 1, email := "alice@example.com", password := some "hashA",
    firstName := "Alice", lastName := "L", role := UserRole.user,
    isActive := false, phone := none, createdAt := 0, updatedAt := 0 }

/-- An active stored user, for concrete evaluations. -/
def activeBob : User :=
  { id := 2, email := "bob@example.com", password := some "pw#",
    firstName := "Bob", lastName := "M", role := UserRole.user,
    isActive := true, phone := none, createdAt := 5, updatedAt := 5 }

/-- C2.  Evaluating `validateJwtPayload` at the two failure inputs: a token
whose subject no longer exists is rejected with the `NotFoundException`
propagated out of `UsersService.findOne` (NOT with an unauthorized
authentication error — the strategy's own `UnauthorizedException('User no
longer exists')` branch is dead code, since `findOne` throws first); a token
for a user that has been deactivated since issuance is rejected with
`UnauthorizedException('User account is deactivated')` even though the token
itself is still valid. -/
theorem validateJwtPayload_failure_modes :
    AuthService.validateJwtPayload []
        { sub := 1, email := "alice@example.com", role := UserRole.user }
      = .error (.notFound "User with ID 1 not found") ∧
    AuthService.validateJwtPayload [inactiveAlice]
        { sub := 1, email := "alice@example.com", role := UserRole.user }
      = .error (.unauthorized "User account is deactivated") ∧
    AuthService.validateJwtPayload [activeBob]
        { sub := 2, email := "bob@example.com", role := UserRole.user }
      = .ok (selectNonPasswordColumns activeBob) := by
  refine ⟨by decide, by decide, by decide⟩

/-- C6.  Two-run indistinguishability of login failures, and sanitisation.
Run 1 uses an email with no account; run 2 uses an existing active account
with a wrong password: both produce the identical
`UnauthorizedException('Invalid email or password')`, so the login outcome
does not reveal whether the email exists.  `validateUser` returns `null` in
both cases and also for a deactivated account (run 3), and on success (run 4)
returns the user with the password field stripped. -/
theorem validateUser_indistinguishable_and_sanitized
    (compare : String → String → Bool) (db₁ db₂ db₃ db₄ : List User)
    (e₁ p₁ e₂ p₂ e₃ p₃ e₄ p₄ hash₂ hash₄ : String) (u₂ u₃ u₄ : User)
    (hA : UsersService.findByEmail db₁ e₁ = none)
    (hB1 : UsersService.findByEmail db₂ e₂ = some u₂)
    (hB2 : u₂.isActive = true)
    (hB3 : u₂.password = some hash₂)
    (hB4 : compare p₂ hash₂ = false)
    (hC1 : UsersService.findByEmail db₃ e₃ = some u₃)
    (hC2 : u₃.isActive = false)
    (hD1 : UsersService.findByEmail db₄ e₄ = some u₄)
    (hD2 : u₄.isActive = true)
    (hD3 : u₄.password = some hash₄)
    (hD4 : compare p₄ hash₄ = true) :
    LocalStrategy.validate compare db₁ e₁ p₁
        = .error (.unauthorized "Invalid email or password") ∧
    LocalStrategy.validate compare db₂ e₂ p₂
        = .error (.unauthorized "Invalid email or password") ∧
    LocalStrategy.validate compare db₁ e₁ p₁ = LocalStrategy.validate compare db₂ e₂ p₂ ∧
    AuthService.validateUser compare db₁ e₁ p₁ = none ∧
    AuthService.validateUser compare db₂ e₂ p₂ = none ∧
    AuthService.validateUser compare db₃ e₃ p₃ = none ∧
    AuthService.validateUser compare db₄ e₄ p₄ = some (stripPassword u₄) ∧
    (stripPassword u₄).password = none := by
  have r₁ : AuthService.validateUser compare db₁ e₁ p₁ = none := by
    simp [AuthService.validateUser, hA]
  have r₂ : AuthService.validateUser compare db₂ e₂ p₂ = none := by
    simp [AuthService.validateUser, hB1, hB2, hB3, hB4]
  have r₃ : AuthService.validateUser compare db₃ e₃ p₃ = none := by
    simp [AuthService.validateUser, hC1, hC2]
  have r₄ : AuthService.validateUser compare db₄ e₄ p₄ = some (stripPassword u₄) := by
    simp [AuthService.validateUser, hD1, hD2, hD3, hD4]
  refine ⟨?_, ?_, ?_, r₁, r₂, r₃, r₄, rfl⟩
  · simp [LocalStrategy.validate, r₁]
  · simp [LocalStrategy.validate, r₂]
  · simp [LocalStrategy.validate, r₁, r₂]

/-- Witness for C6 at concrete inputs: `compare p h` is modelled as
`p ++ "#" == h`; run 1 queries an unknown email over an empty store, run 2 a
wrong password for Bob, run 3 the deactivated Alice, run 4 Bob's correct
password. -/
theorem validateUser_indistinguishable_witness :
    (UsersService.findByEmail [] "ghost@example.com" = none ∧
      UsersService.findByEmail [activeBob] "bob@example.com" = some activeBob ∧
      activeBob.isActive = true ∧
      activeBob.password = some "pw#" ∧
      (fun p h => (p ++ "#") == h) "wrong" "pw#" = false ∧
      UsersService.findByEmail [inactiveAlice] "alice@example.com" = some inactiveAlice ∧
      inactiveAlice.isActive = false ∧
      (fun p h => (p ++ "#") == h) "pw" "pw#" = true) ∧
    (LocalStrategy.validate (fun p h => (p ++ "#") == h) [] "ghost@example.com" "x"
        = .error (.unauthorized "Invalid email or password") ∧
      LocalStrategy.validate (fun p h => (p ++ "#") == h) [activeBob] "bob@example.com" "wrong"
        = .error (.unauthorized "Invalid email or password") ∧
      LocalStrategy.validate (fun p h => (p ++ "#") == h) [] "ghost@example.com" "x"
        = LocalStrategy.validate (fun p h => (p ++ "#") == h) [activeBob] "bob@example.com" "wrong" ∧
      AuthService.validateUser (fun p h => (p ++ "#") == h) [] "ghost@example.com" "x" = none ∧
      AuthService.validateUser (fun p h => (p ++ "#") == h) [activeBob] "bob@example.com" "wrong" = none ∧
      AuthService.validateUser (fun p h => (p ++ "#") == h) [inactiveAlice] "alice@example.com" "whatever" = none ∧
      AuthService.validateUser (fun p h => (p ++ "#") == h) [activeBob] "bob@example.com" "pw"
        = some (stripPassword activeBob) ∧
      (stripPassword activeBob).password = none) :=
  ⟨⟨by decide, by decide, by decide, by decide, by decide, by decide, by decide, by decide⟩,
    validateUser_indistinguishable_and_sanitized (fun p h => (p ++ "#") == h)
      [] [activeBob] [inactiveAlice] [activeBob]
      "ghost@example.com" "x" "bob@example.com" "wrong"
      "alice@example.com" "whatever" "bob@example.com" "pw"
      "pw#" "pw#" activeBob inactiveAlice activeBob
      (by decide) (by decide) (by decide) (by decide) (by decide) (by decide)
      (by decide) (by decide) (by decide) (by decide) (by decide)⟩

/-! ## Role authorization (`roles.guard.ts`) -/

/-- `reflector.getAllAndOverride(ROLES_KEY, [handler, class])`: the
method-level metadata, when defined, overrides the class-level metadata. -/
def getAllAndOverride (handlerRoles classRoles : Option (List UserRole)) :
    Option (List UserRole) :=
  match handlerRoles with
  | some rs => some rs
  | none => classRoles

/-- `RolesGuard.canActivate`.  `user` is `req.user` reduced to the only field
the guard reads, its role; `none` is a missing `req.user`.  No declared roles
(or an empty declared list) grants access; declared roles with a missing user
deny (`false`, not an exception); otherwise `requiredRoles.includes(user.role)`. -/
def RolesGuard.canActivate (handlerRoles classRoles : Option (List UserRole))
    (user : Option UserRole) : Bool :=
  match getAllAndOverride handlerRoles classRoles with
  | none => true
  | some requiredRoles =>
      if requiredRoles.isEmpty then true
      else
        match user with
        | none => false
        | some role => requiredRoles.contains role

/-- C9.  With no roles declared anywhere, access is granted unconditionally;
a method-level declaration overrides any class-level declaration; with a
nonempty declared role list, a missing caller identity yields `false` (a
denial, not an error — the function is total into `Bool`); with an identity
present, access is granted exactly when the caller's single role is a member
of the required list; and there is no role hierarchy: `admin` does not
satisfy a moderator-only requirement. -/
theorem rolesGuard_membership (classRoles classRoles₂ : Option (List UserRole))
    (user : Option UserRole) (rs : List UserRole) (role : UserRole)
    (hrs : rs ≠ []) :
    RolesGuard.canActivate none none user = true ∧
    RolesGuard.canActivate (some rs) classRoles user
        = RolesGuard.canActivate (some rs) classRoles₂ user ∧
    RolesGuard.canActivate (some rs) classRoles none = false ∧
    RolesGuard.canActivate (some rs) classRoles (some role) = rs.contains role ∧
    RolesGuard.canActivate (some [UserRole.moderator]) classRoles (some UserRole.admin)
        = false := by
  cases rs with
  | nil => exact absurd rfl hrs
  | cons a l =>
      refine ⟨rfl, rfl, ?_, ?_, by simp [RolesGuard.canActivate, getAllAndOverride]⟩
      · simp [RolesGuard.canActivate, getAllAndOverride]
      · simp [RolesGuard.canActivate, getAllAndOverride]

/-- Witness for C9: a moderator-only route, a caller with the admin role. -/
theorem rolesGuard_membership_witness :
    ([UserRole.moderator] ≠ ([] : List UserRole)) ∧
    (RolesGuard.canActivate none none (some UserRole.admin) = true ∧
      RolesGuard.canActivate (some [UserRole.moderator]) (some [UserRole.admin])
          (some UserRole.admin)
        = RolesGuard.canActivate (some [UserRole.moderator]) none (some UserRole.admin) ∧
      RolesGuard.canActivate (some [UserRole.moderator]) (some [UserRole.admin]) none = false ∧
      RolesGuard.canActivate (some [UserRole.moderator]) (some [UserRole.admin])
          (some UserRole.admin)
        = [UserRole.moderator].contains UserRole.admin ∧
      RolesGuard.canActivate (some [UserRole.moderator]) (some [UserRole.admin])
          (some UserRole.admin)
        = false) :=
  ⟨by decide,
    rolesGuard_membership (some [UserRole.admin]) none (some UserRole.admin)
      [UserRole.moderator] UserRole.admin (by decide)⟩

/-- C10.  No user object returned by the user service's public interface
carries a password: `create` and `update` strip the password from the object
they return, `findOne` and `findAll` select only the non-password columns. -/
theorem usersService_never_returns_password (hash : String → String)
    (newId now : Nat) (db : List User) (dto : CreateUserDto)
    (id id₂ : Nat) (udto : UpdateUserDto) (u r w : User)
    (hc : (UsersService.create hash newId now db dto).2 = .ok u)
    (hf : UsersService.findOne db id = .ok r)
    (hu : (UsersService.update db id₂ udto).2 = .ok w) :
    u.password = none ∧ r.password = none ∧ w.password = none ∧
    ∀ v ∈ UsersService.findAll db, v.password = none := by
  refine ⟨?_, ?_, ?_, ?_⟩
  · unfold UsersService.create at hc
    split at hc
    · simp at hc
    · simp only [Except.ok.injEq] at hc
      rw [← hc]
      rfl
  · unfold UsersService.findOne at hf
    split at hf
    · simp at hf
    · simp only [Except.ok.injEq] at hf
      rw [← hf]
      rfl
  · unfold UsersService.update at hu
    split at hu
    · simp at hu
    · dsimp only at hu
      split at hu
      · split at hu
        · split at hu
          · simp at hu
          · simp only [Except.ok.injEq] at hu
            rw [← hu]
            rfl
        · simp only [Except.ok.injEq] at hu
          rw [← hu]
          rfl
      · simp only [Except.ok.injEq] at hu
        rw [← hu]
        rfl
  · intro v hv
    unfold UsersService.findAll at hv
    obtain ⟨x, -, hx⟩ := List.mem_map.1 hv
    rw [← hx]
    rfl

/-- A create DTO with a fresh email, for the C10 witness. -/
def sampleCreateDto : CreateUserDto :=
  { email := "carol@example.com", password := "S3cretPw", firstName := "Carol",
    lastName := "N", phone := none, role := none }

/-- An update DTO carrying no fields, for the C10 witness. -/
def emptyUpdateDto : UpdateUserDto :=
  { email := none, firstName := none, lastName := none, phone := none,
    role := none, isActive := none }

/-- Witness for C10: a concrete store with one user; create a second user,
read the first back, and update the first with an empty patch. -/
theorem usersService_never_returns_password_witness :
    ((UsersService.create (fun s => s) 3 7 [activeBob] sampleCreateDto).2
        = .ok { id := 3, email := "carol@example.com", password := none,
                firstName := "Carol", lastName := "N", role := UserRole.user,
                isActive := true, phone := none, createdAt := 7, updatedAt := 7 } ∧
      UsersService.findOne [activeBob] 2 = .ok (selectNonPasswordColumns activeBob) ∧
      (UsersService.update [activeBob] 2 emptyUpdateDto).2
        = .ok (selectNonPasswordColumns activeBob)) ∧
    (({ id := 3, email := "carol@example.com", password := none,
        firstName := "Carol", lastName := "N", role := UserRole.user,
        isActive := true, phone := none, createdAt := 7, updatedAt := 7 } : User).password
          = none ∧
      (selectNonPasswordColumns activeBob).password = none ∧
      (selectNonPasswordColumns activeBob).password = none ∧
      ∀ v ∈ UsersService.findAll [activeBob], v.password = none) :=
  ⟨⟨by decide, by decide, by decide⟩,
    usersService_never_returns_password (fun s => s) 3 7 [activeBob] sampleCreateDto
      2 2 emptyUpdateDto _ _ _ (by decide) (by decide) (by decide)⟩

/-! ## Products (`product.entity.ts`, `products.service.ts`) -/

/-- `ProductStatus` enum. -/
inductive ProductStatus where
  | draft
  | active
  | inactive
  | discontinued
deriving Repr, DecidableEq

/-- `ProductCategory` enum. -/
inductive ProductCategory where
  | electronics
  | clothing
  | food
  | books
  | other
deriving Repr, DecidableEq

/-- A `Product` entity row.  `price` and `discountPercent` are `DECIMAL`
columns, modelled as exact rationals; `stock` is an `int` column; the
`createdBy` relation is reduced to its foreign-key column `createdById`. -/
structure Product where
  id : Nat
  name : String
  description : Option String
  price : ℚ
  stock : Int
  sku : Option String
  category : ProductCategory
  status : ProductStatus
  isFeatured : Bool
  discountPercent : Option ℚ
  createdById : Option Nat
  createdAt : Nat
  updatedAt : Nat
deriving Repr, DecidableEq

/-- `QueryProductDto` (`query-product.dto.ts`): every filter optional;
`page`, `limit`, `sortBy`, `sortOrder` are defaulted inside `findAll` by the
destructuring defaults `page = 1, limit = 10, sortBy = 'createdAt',
sortOrder = 'DESC'`. -/
structure QueryProductDto where
  search : Option String
  category : Option ProductCategory
  status : Option ProductStatus
  minPrice : Option ℚ
  maxPrice : Option ℚ
  featured : Option Bool
  inStock : Option Bool
  page : Option Nat
  limit : Option Nat
  sortBy : Option String
  sortOrder : Option String
deriving Repr, DecidableEq

/-- Tests whether `needle` occurs as a contiguous sublist of the second
argument. -/
def listContainsSub (needle : List Char) : List Char → Bool
  | [] => needle.isEmpty
  | c :: rest => needle.isPrefixOf (c :: rest) || listContainsSub needle rest

/-- `LOWER(hay) LIKE LOWER('%needle%')`: case-insensitive substring test
(LIKE metacharacters inside the search string are not modelled; no claim
involves them). -/
def likeContains (needle hay : String) : Bool :=
  listContainsSub needle.toLower.data hay.toLower.data

/-- The conjunction of the `andWhere` clauses built by
`ProductsService.findAll`, as a predicate on one row.  JS truthiness guards
are kept: an empty `search` string is falsy, so the clause is skipped; the
search clause matches name OR description, a SQL-`NULL` description never
matching; `minPrice`/`maxPrice` are tested with `!== undefined` (BETWEEN is
inclusive); `featured` with `!== undefined`; `inStock` only when truthy, i.e.
`some true`. -/
def matchesQuery (q : QueryProductDto) (p : Product) : Bool :=
  (match q.search with
   | some s =>
       if s = "" then true
       else
         likeContains s p.name ||
           (match p.description with
            | some d => likeContains s d
            | none => false)
   | none => true) &&
  (match q.category with | some c => decide (p.category = c) | none => true) &&
  (match q.status with | some st => decide (p.status = st) | none => true) &&
  (match q.minPrice, q.maxPrice with
   | some lo, some hi => decide (lo ≤ p.price) && decide (p.price ≤ hi)
   | some lo, none => decide (lo ≤ p.price)
   | none, some hi => decide (p.price ≤ hi)
   | none, none => true) &&
  (match q.featured with | some f => p.isFeatured == f | none => true) &&
  (match q.inStock with
   | some b =>
       if b then decide (0 < p.stock) && decide (p.status = ProductStatus.active)
       else true
   | none => true)

/-- The sort-field allow-list of `ProductsService.findAll`. -/
def allowedSortFields : List String := ["name", "price", "createdAt", "updatedAt", "stock"]

/-- `const safeSortBy = allowedSortFields.includes(sortBy) ? sortBy : 'createdAt'`. -/
def safeSortBy (sortBy : String) : String :=
  if allowedSortFields.contains sortBy then sortBy else "createdAt"

/-- `const safeSortOrder = sortOrder === 'ASC' ? 'ASC' : 'DESC'`. -/
def safeSortOrder (sortOrder : String) : String :=
  if sortOrder = "ASC" then "ASC" else "DESC"

/-- Ascending comparison on one allow-listed column (only ever called with a
member of `allowedSortFields`; the catch-all arm is `createdAt`). -/
def sortFieldLe (field : String) (a b : Product) : Bool :=
  if field = "name" then decide (a.name ≤ b.name)
  else if field = "price" then decide (a.price ≤ b.price)
  else if field = "updatedAt" then decide (a.updatedAt ≤ b.updatedAt)
  else if field = "stock" then decide (a.stock ≤ b.stock)
  else decide (a.createdAt ≤ b.createdAt)

/-- `queryBuilder.orderBy('product.' + safeSortBy, safeSortOrder)`.  The SQL
order among equal keys is unspecified; a deterministic stable sort is used
here (no claim depends on tie order). -/
def orderProducts (field ord : String) (l : List Product) : List Product :=
  if ord = "ASC" then sortByLe (sortFieldLe field) l
  else sortByLe (fun a b => sortFieldLe field b a) l

/-- The `meta` object of a paginated response. -/
structure PaginationMeta where
  total : Nat
  page : Nat
  limit : Nat
  totalPages : Nat
  hasNextPage : Bool
  hasPreviousPage : Bool
deriving Repr, DecidableEq

/-- `PaginatedResponse<Product>`. -/
structure PaginatedResponse where
  data : List Product
  meta : PaginationMeta
deriving Repr, DecidableEq

/-- `ProductsService.findAll`: filters, sorts, counts the filtered set before
pagination (`getCount` runs before `skip`/`take` are set), then slices with
`skip = (page - 1) * limit`, `take = limit`, and computes
`totalPages = Math.ceil(total / limit)`,
`hasNextPage = page < totalPages`, `hasPreviousPage = page > 1`. -/
def ProductsService.findAll (db : List Product) (q : QueryProductDto) : PaginatedResponse :=
  let page := q.page.getD 1
  let limit := q.limit.getD 10
  let filtered := db.filter (matchesQuery q)
  let sorted := orderProducts (safeSortBy (q.sortBy.getD "createdAt"))
    (safeSortOrder (q.sortOrder.getD "DESC")) filtered
  let total := filtered.length
  let skip := (page - 1) * limit
  let products := (sorted.drop skip).take limit
  let totalPages := (mathCeilDiv (total : Int) (limit : Int)).toNat
  let m : PaginationMeta :=
    { total := total, page := page, limit := limit, totalPages := totalPages,
      hasNextPage := decide (page < totalPages), hasPreviousPage := decide (1 < page) }
  { data := products, meta := m }

/-- `productRepository.findOne({ where: { id } })`. -/
def findProductById (db : List Product) (id : Nat) : Option Product :=
  db.find? (fun p => p.id == id)

/-- `ProductsService.findOne`: throws `NotFoundException` when the id does
not resolve (the `createdBy` relation it also loads is not modelled). -/
def ProductsService.findOne (db : List Product) (id : Nat) : Except AppError Product :=
  match findProductById db id with
  | none => .error (.notFound ("Product with ID " ++ toString id ++ " not found"))
  | some p => .ok p

/-- Persists one product by id (`repository.save`; the automatic `updatedAt`
bump is not modelled, no claim depends on it). -/
def saveProduct (db : List Product) (p : Product) : List Product :=
  db.map (fun x => if x.id == p.id then p else x)

/-- `ProductsService.updateStock`: `newStock = stock + quantity`; a negative
result throws `BadRequestException` with the available/requested amounts and
nothing is saved; otherwise the new stock is saved.  The
`if (newStock === 0 && status === ACTIVE)` block in the source has an empty
body (the status change inside it is commented out), so the status is never
touched. -/
def ProductsService.updateStock (db : List Product) (id : Nat) (quantity : Int) :
    List Product × Except AppError Product :=
  match ProductsService.findOne db id with
  | .error e => (db, .error e)
  | .ok product =>
      let newStock := product.stock + quantity
      if newStock < 0 then
        (db, .error (.badRequest ("Insufficient stock. Available: "
          ++ toString product.stock ++ ", Requested: " ++ toString quantity.natAbs)))
      else
        let updated := { product with stock := newStock }
        (saveProduct db updated, .ok updated)

/-- `ProductsService.applyDiscount`: the `0 ≤ percent ≤ 100` validation runs
before the product is even looked up; then a non-active product is rejected
with the business-rule error; otherwise the discount is stored. -/
def ProductsService.applyDiscount (db : List Product) (id : Nat) (discountPercent : ℚ) :
    List Product × Except AppError Product :=
  if discountPercent < 0 ∨ 100 < discountPercent then
    (db, .error (.badRequest "Discount must be between 0 and 100"))
  else
    match ProductsService.findOne db id with
    | .error e => (db, .error e)
    | .ok product =>
        if product.status ≠ ProductStatus.active then
          (db, .error (.badRequest "Cannot apply discount to inactive products"))
        else
          let updated := { product with discountPercent := some discountPercent }
          (saveProduct db updated, .ok updated)

theorem mathCeilDiv_natCast (T L : Nat) :
    mathCeilDiv (T : Int) (L : Int) = ⌈(T : ℚ) / (L : ℚ)⌉ := by
  have h := mathCeilDiv_eq_ceil (T : Int) L
  rw [h, Int.cast_natCast]

theorem mathCeilDiv_toNat_eq (T L : Nat) (hL : 1 ≤ L) :
    (mathCeilDiv (T : Int) (L : Int)).toNat = (T + L - 1) / L := by
  set c := (T + L - 1) / L with hc
  have hdm := Nat.div_add_mod (T + L - 1) L
  have hmlt : (T + L - 1) % L < L := Nat.mod_lt _ (by omega)
  rw [← hc] at hdm
  have h1 : T ≤ L * c := by omega
  have h2 : L * c < T + L := by omega
  have hLQ : (0 : ℚ) < (L : ℚ) := by exact_mod_cast (by omega : 0 < L)
  have hceil : ⌈(T : ℚ) / (L : ℚ)⌉ = ((c : ℕ) : ℤ) := by
    rw [Int.ceil_eq_iff]
    constructor
    · rw [lt_div_iff₀ hLQ]
      have hq := (Nat.cast_lt (α := ℚ)).2 h2
      push_cast at hq ⊢
      nlinarith
    · rw [div_le_iff₀ hLQ]
      have hq := (Nat.cast_le (α := ℚ)).2 h1
      push_cast at hq ⊢
      linarith
  rw [mathCeilDiv_natCast, hceil, Int.toNat_natCast]

theorem lt_mathCeilDiv_toNat_iff (T L p : Nat) (hL : 1 ≤ L) :
    p < (mathCeilDiv (T : Int) (L : Int)).toNat ↔ p * L < T := by
  have hLQ : (0 : ℚ) < (L : ℚ) := by exact_mod_cast (by omega : 0 < L)
  rw [mathCeilDiv_natCast, Int.lt_toNat, Int.lt_ceil]
  rw [show ((p : ℤ) : ℚ) = (p : ℚ) by push_cast; rfl, lt_div_iff₀ hLQ]
  constructor
  · intro h
    exact_mod_cast h
  · intro h
    exact_mod_cast h

/-- C3.  `findAll` computes `meta.total` from the filtered but unpaginated
set, slices the sorted filtered set with `offset = (page - 1) * limit` and
`take = limit` (so at most `limit` rows are returned), and computes
`totalPages = ceil(total / limit)` (equal to the usual `(total+limit-1)/limit`
closed form), `hasNextPage ↔ page * limit < total` (i.e. `page < totalPages`),
`hasPreviousPage ↔ page > 1`. -/
theorem findAll_pagination_meta (db : List Product) (q : QueryProductDto)
    (hL : 1 ≤ q.limit.getD 10) :
    (ProductsService.findAll db q).meta.total = (db.filter (matchesQuery q)).length ∧
    (ProductsService.findAll db q).data
      = ((orderProducts (safeSortBy (q.sortBy.getD "createdAt"))
            (safeSortOrder (q.sortOrder.getD "DESC"))
            (db.filter (matchesQuery q))).drop
          ((q.page.getD 1 - 1) * q.limit.getD 10)).take (q.limit.getD 10) ∧
    (ProductsService.findAll db q).data.length ≤ q.limit.getD 10 ∧
    (ProductsService.findAll db q).meta.totalPages
      = ((db.filter (matchesQuery q)).length + q.limit.getD 10 - 1) / q.limit.getD 10 ∧
    ((ProductsService.findAll db q).meta.hasNextPage = true
      ↔ q.page.getD 1 * q.limit.getD 10 < (db.filter (matchesQuery q)).length) ∧
    ((ProductsService.findAll db q).meta.hasPreviousPage = true ↔ 1 < q.page.getD 1) := by
  refine ⟨rfl, rfl, ?_, ?_, ?_, ?_⟩
  · exact List.length_take_le _ _
  · exact mathCeilDiv_toNat_eq _ _ hL
  · simp only [ProductsService.findAll, decide_eq_true_eq]
    exact lt_mathCeilDiv_toNat_iff _ _ _ hL
  · simp [ProductsService.findAll]

/-- One sample product; `createdAt = 1000 - i` makes the default
`createdAt DESC` ordering coincide with ascending id. -/
def sampleProduct (i : Nat) : Product :=
  { id := i, name := "P", description := none, price := 1, stock := 1,
    sku := none, category := ProductCategory.other, status := ProductStatus.active,
    isFeatured := false, discountPercent := none, createdById := none,
    createdAt := 1000 - i, updatedAt := 1000 - i }

/-- A 25-item store, ids 1..25. -/
def sampleDb25 : List Product := (List.range 25).map (fun i => sampleProduct (i + 1))

/-- The query `page=2, limit=10` with no filters. -/
def samplePageQuery : QueryProductDto :=
  { search := none, category := none, status := none, minPrice := none,
    maxPrice := none, featured := none, inStock := none, page := some 2,
    limit := some 10, sortBy := none, sortOrder := none }

/-- Witness for C3 at the spec's example: `page=2, limit=10` over a 25-item
unfiltered store returns items 11..20 of the listing order with
`totalPages = 3`, `hasNextPage = true`, `hasPreviousPage = true`. -/
theorem findAll_pagination_meta_witness :
    (1 ≤ samplePageQuery.limit.getD 10) ∧
    ((ProductsService.findAll sampleDb25 samplePageQuery).meta.total
        = (sampleDb25.filter (matchesQuery samplePageQuery)).length ∧
      (ProductsService.findAll sampleDb25 samplePageQuery).data
        = ((orderProducts (safeSortBy (samplePageQuery.sortBy.getD "createdAt"))
              (safeSortOrder (samplePageQuery.sortOrder.getD "DESC"))
              (sampleDb25.filter (matchesQuery samplePageQuery))).drop
            ((samplePageQuery.page.getD 1 - 1) * samplePageQuery.limit.getD 10)).take
              (samplePageQuery.limit.getD 10) ∧
      (ProductsService.findAll sampleDb25 samplePageQuery).data.length
        ≤ samplePageQuery.limit.getD 10 ∧
      (ProductsService.findAll sampleDb25 samplePageQuery).meta.totalPages
        = ((sampleDb25.filter (matchesQuery samplePageQuery)).length
            + samplePageQuery.limit.getD 10 - 1) / samplePageQuery.limit.getD 10 ∧
      ((ProductsService.findAll sampleDb25 samplePageQuery).meta.hasNextPage = true
        ↔ samplePageQuery.page.getD 1 * samplePageQuery.limit.getD 10
            < (sampleDb25.filter (matchesQuery samplePageQuery)).length) ∧
      ((ProductsService.findAll sampleDb25 samplePageQuery).meta.hasPreviousPage = true
        ↔ 1 < samplePageQuery.page.getD 1)) ∧
    ((ProductsService.findAll sampleDb25 samplePageQuery).data
        = (List.range 10).map (fun i => sampleProduct (i + 11)) ∧
      (ProductsService.findAll sampleDb25 samplePageQuery).meta
        = { total := 25, page := 2, limit := 10, totalPages := 3,
            hasNextPage := true, hasPreviousPage := true }) :=
  ⟨by decide, findAll_pagination_meta sampleDb25 samplePageQuery (by decide),
    by decide⟩

theorem matchesQuery_update_sortBy (q : QueryProductDto) (x : Option String) :
    matchesQuery { q with sortBy := x } = matchesQuery q := rfl

theorem matchesQuery_update_sortOrder (q : QueryProductDto) (x : Option String) :
    matchesQuery { q with sortOrder := x } = matchesQuery q := rfl

theorem safeSortBy_not_allowed (s : String) (hs : s ∉ allowedSortFields) :
    safeSortBy s = "createdAt" := by
  have hc : allowedSortFields.contains s = false := by
    cases hcl : allowedSortFields.contains s
    · rfl
    · exact absurd (List.mem_of_elem_eq_true hcl) hs
  simp [safeSortBy, hc]
  intro hmem
  exact absurd hmem hs

/-- C5.  `sortBy` outside the allow-list
`{name, price, createdAt, updatedAt, stock}` silently falls back to
`createdAt` — the whole response is identical to the one for
`sortBy = 'createdAt'`, and no error is raised (`findAll` is total); a
`sortOrder` other than exactly `"ASC"` falls back to `DESC` the same way. -/
theorem findAll_sort_fallback (db : List Product) (q : QueryProductDto) (s o : String)
    (hs : s ∉ allowedSortFields) (ho : o ≠ "ASC") :
    ProductsService.findAll db { q with sortBy := some s }
      = ProductsService.findAll db { q with sortBy := some "createdAt" } ∧
    ProductsService.findAll db { q with sortOrder := some o }
      = ProductsService.findAll db { q with sortOrder := some "DESC" } ∧
    safeSortBy s = "createdAt" ∧
    (s ∈ allowedSortFields → safeSortBy s = s) ∧
    safeSortOrder o = "DESC" ∧
    safeSortOrder "ASC" = "ASC" := by
  have h1 : safeSortBy s = "createdAt" := safeSortBy_not_allowed s hs
  have h2 : safeSortOrder o = "DESC" := by rw [safeSortOrder, if_neg ho]
  refine ⟨?_, ?_, h1, fun hmem => absurd hmem hs, h2, rfl⟩
  · simp only [ProductsService.findAll, matchesQuery_update_sortBy, Option.getD_some, h1]
    rfl
  · simp only [ProductsService.findAll, matchesQuery_update_sortOrder, Option.getD_some, h2]
    rfl

/-- Witness for C5 at the spec's example `sortBy = "password"` (and a
non-"ASC" sort order `"asc"`), over the 25-item sample store. -/
theorem findAll_sort_fallback_witness :
    ("password" ∉ allowedSortFields ∧ "asc" ≠ "ASC") ∧
    (ProductsService.findAll sampleDb25 { samplePageQuery with sortBy := some "password" }
        = ProductsService.findAll sampleDb25
            { samplePageQuery with sortBy := some "createdAt" } ∧
      ProductsService.findAll sampleDb25 { samplePageQuery with sortOrder := some "asc" }
        = ProductsService.findAll sampleDb25
            { samplePageQuery with sortOrder := some "DESC" } ∧
      safeSortBy "password" = "createdAt" ∧
      ("password" ∈ allowedSortFields → safeSortBy "password" = "password") ∧
      safeSortOrder "asc" = "DESC" ∧
      safeSortOrder "ASC" = "ASC") :=
  ⟨⟨by decide, by decide⟩,
    findAll_sort_fallback sampleDb25 samplePageQuery "password" "asc"
      (by decide) (by decide)⟩

/-- C4.  `updateStock` computes `newStock = stock + quantity`; when
`newStock < 0` it throws a `BadRequestException` stating available vs.
requested and the store is left unchanged; otherwise it saves exactly the new
stock; and any returned product keeps the original status (the
zero-stock auto-transition is an empty, commented-out code path). -/
theorem updateStock_deficit_guard (db : List Product) (id : Nat)
    (quantity : Int) (p : Product)
    (hp : findProductById db id = some p) :
    (p.stock + quantity < 0 →
      ProductsService.updateStock db id quantity
        = (db, .error (.badRequest ("Insufficient stock. Available: "
            ++ toString p.stock ++ ", Requested: " ++ toString quantity.natAbs)))) ∧
    (0 ≤ p.stock + quantity →
      ProductsService.updateStock db id quantity
        = (saveProduct db { p with stock := p.stock + quantity },
            .ok { p with stock := p.stock + quantity })) ∧
    (∀ r : Product, (ProductsService.updateStock db id quantity).2 = .ok r →
      r.status = p.status ∧ r.stock = p.stock + quantity) := by
  have hfo : ProductsService.findOne db id = .ok p := by
    rw [ProductsService.findOne, hp]
  refine ⟨?_, ?_, ?_⟩
  · intro hneg
    rw [ProductsService.updateStock, hfo]
    simp only [if_pos hneg]
  · intro hpos
    rw [ProductsService.updateStock, hfo]
    simp only [if_neg (by omega : ¬ p.stock + quantity < 0)]
  · intro r hr
    rw [ProductsService.updateStock, hfo] at hr
    by_cases hneg : p.stock + quantity < 0
    · simp [if_pos hneg] at hr
    · simp only [if_neg hneg, Except.ok.injEq] at hr
      rw [← hr]
      exact ⟨rfl, rfl⟩

/-- The spec example's product: stock 3, active. -/
def stockProduct : Product :=
  { id := 1, name := "S", description := none, price := 2, stock := 3,
    sku := none, category := ProductCategory.other, status := ProductStatus.active,
    isFeatured := false, discountPercent := none, createdById := none,
    createdAt := 0, updatedAt := 0 }

/-- Witness for C4 at the spec's example: `updateStock(id, -5)` on stock 3
fails with the deficit message naming available 3 and requested 5, and the
store is unchanged (the stock stays 3). -/
theorem updateStock_deficit_guard_witness :
    (findProductById [stockProduct] 1 = some stockProduct) ∧
    ((stockProduct.stock + (-5) < 0 →
        ProductsService.updateStock [stockProduct] 1 (-5)
          = ([stockProduct], .error (.badRequest ("Insufficient stock. Available: "
              ++ toString stockProduct.stock ++ ", Requested: " ++ toString (Int.natAbs (-5)))))) ∧
      (0 ≤ stockProduct.stock + (-5) →
        ProductsService.updateStock [stockProduct] 1 (-5)
          = (saveProduct [stockProduct] { stockProduct with stock := stockProduct.stock + (-5) },
              .ok { stockProduct with stock := stockProduct.stock + (-5) })) ∧
      (∀ r : Product, (ProductsService.updateStock [stockProduct] 1 (-5)).2 = .ok r →
        r.status = stockProduct.status ∧ r.stock = stockProduct.stock + (-5))) ∧
    (ProductsService.updateStock [stockProduct] 1 (-5)
        = ([stockProduct], .error (.badRequest "Insufficient stock. Available: 3, Requested: 5")) ∧
      (ProductsService.updateStock [stockProduct] 1 (-5)).1 = [stockProduct]) :=
  ⟨by decide, updateStock_deficit_guard [stockProduct] 1 (-5) stockProduct (by decide),
    by decide, by decide⟩

/-- C7.  `applyDiscount` validates `0 ≤ percent ≤ 100` before anything else
(any out-of-range percent is rejected with the validation error, the store
untouched); for an in-range percent on a product whose status is not active
it throws the business-rule error, again leaving the store untouched. -/
theorem applyDiscount_validation (db : List Product) (id : Nat)
    (percent : ℚ) (p : Product) :
    ((percent < 0 ∨ 100 < percent) →
      ProductsService.applyDiscount db id percent
        = (db, .error (.badRequest "Discount must be between 0 and 100"))) ∧
    (0 ≤ percent → percent ≤ 100 → findProductById db id = some p →
      p.status ≠ ProductStatus.active →
      ProductsService.applyDiscount db id percent
        = (db, .error (.badRequest "Cannot apply discount to inactive products"))) := by
  constructor
  · intro hrange
    rw [ProductsService.applyDiscount, if_pos hrange]
  · intro h0 h100 hp hst
    rw [ProductsService.applyDiscount,
      if_neg (by push_neg; exact ⟨h0, h100⟩ : ¬ (percent < 0 ∨ 100 < percent)),
      ProductsService.findOne, hp]
    simp only [if_pos hst]

/-- A draft-status product for the C7 witness. -/
def draftProduct : Product :=
  { id := 1, name := "D", description := none, price := 4, stock := 1,
    sku := none, category := ProductCategory.other, status := ProductStatus.draft,
    isFeatured := false, discountPercent := none, createdById := none,
    createdAt := 0, updatedAt := 0 }

/-- Witness for C7 at the spec's examples: `applyDiscount(id, 150)` fails the
range validation (even on a draft product, since the range check runs first),
and `applyDiscount(id, 10)` on a draft product fails the business rule. -/
theorem applyDiscount_validation_witness :
    (((150 : ℚ) < 0 ∨ (100 : ℚ) < 150) ∧ (0 : ℚ) ≤ 10 ∧ (10 : ℚ) ≤ 100 ∧
      findProductById [draftProduct] 1 = some draftProduct ∧
      draftProduct.status ≠ ProductStatus.active) ∧
    (ProductsService.applyDiscount [draftProduct] 1 150
        = ([draftProduct], .error (.badRequest "Discount must be between 0 and 100")) ∧
      ProductsService.applyDiscount [draftProduct] 1 10
        = ([draftProduct], .error (.badRequest "Cannot apply discount to inactive products"))) :=
  ⟨⟨Or.inr (by decide), by decide, by decide, by decide, by decide⟩,
    (applyDiscount_validation [draftProduct] 1 150 draftProduct).1 (Or.inr (by decide)),
    (applyDiscount_validation [draftProduct] 1 10 draftProduct).2
      (by decide) (by decide) (by decide) (by decide)⟩

/-! ## Client identifier (`RateLimitMiddleware.getClientId`) -/

/-- JavaScript string `||` fallback: an absent or empty (falsy) left operand
yields the right operand. -/
def jsOrElse (a : Option String) (b : String) : String :=
  match a with
  | some s => if s = "" then b else s
  | none => b

/-- JavaScript `s.split(',')` over the characters, accumulator-style:
`"a,b".split(',') = ["a","b"]`, `"".split(',') = [""]`, no trimming. -/
def splitCommaAux (acc : List Char) : List Char → List String
  | [] => [String.mk acc.reverse]
  | c :: rest =>
      if c = ',' then String.mk acc.reverse :: splitCommaAux [] rest
      else splitCommaAux (c :: acc) rest

/-- `s.split(',')`. -/
def splitComma (s : String) : List String := splitCommaAux [] s.data

/-- `RateLimitMiddleware.getClientId`: a truthy (present, nonempty)
`x-forwarded-for` header yields `forwarded.split(',')[0]` — the first entry
verbatim, with no trimming; otherwise `req.ip || req.socket.remoteAddress ||
'unknown'`.  Node delivers repeated `x-forwarded-for` headers as one
comma-joined string, so the `Array.isArray(forwarded)` arm of the source is
not reachable for this header and is not modelled. -/
def getClientId (forwarded ip remoteAddress : Option String) : String :=
  match forwarded with
  | some s =>
      if s = "" then jsOrElse ip (jsOrElse remoteAddress "unknown")
      else (splitComma s).headD ""
  | none => jsOrElse ip (jsOrElse remoteAddress "unknown")

/-- C8 (counterexample to the claim as stated).  The code does not trim the
first comma-split entry: for the header `" 1.2.3.4, 5.6.7.8"` the derived
client id is `" 1.2.3.4"`, which still carries the leading space and differs
from the trimmed entry `"1.2.3.4"`. -/
theorem getClientId_no_trim_counterexample :
    getClientId (some " 1.2.3.4, 5.6.7.8") none none = " 1.2.3.4" ∧
    getClientId (some " 1.2.3.4, 5.6.7.8") none none ≠ "1.2.3.4" := by
  refine ⟨by decide, by decide⟩

/-- C8 (amended).  The client identifier is the first comma-split entry of
the forwarded-for header, taken verbatim (NOT trimmed), whenever that header
is present and nonempty; otherwise the direct connection address (`req.ip`,
then `req.socket.remoteAddress`); otherwise the literal `"unknown"`, which
all unidentified clients share. -/
theorem getClientId_derivation (ip remote : Option String) (s i r : String)
    (hs : s ≠ "") (hi : i ≠ "") (hr : r ≠ "") :
    getClientId (some s) ip remote = (splitComma s).headD "" ∧
    getClientId (some "") ip remote = getClientId none ip remote ∧
    getClientId none (some i) remote = i ∧
    getClientId none none (some r) = r ∧
    getClientId none none none = "unknown" := by
  refine ⟨?_, rfl, ?_, ?_, rfl⟩
  · rw [getClientId, if_neg hs]
  · rw [getClientId, jsOrElse, if_neg hi]
  · rw [getClientId, jsOrElse, jsOrElse, if_neg hr]

/-- Witness for C8 at concrete headers and addresses. -/
theorem getClientId_derivation_witness :
    ("1.2.3.4, 5.6.7.8" ≠ "" ∧ "10.0.0.7" ≠ "" ∧ "192.168.0.9" ≠ "") ∧
    (getClientId (some "1.2.3.4, 5.6.7.8") (some "10.0.0.7") (some "192.168.0.9")
        = (splitComma "1.2.3.4, 5.6.7.8").headD "" ∧
      getClientId (some "") (some "10.0.0.7") (some "192.168.0.9")
        = getClientId none (some "10.0.0.7") (some "192.168.0.9") ∧
      getClientId none (some "10.0.0.7") (some "192.168.0.9") = "10.0.0.7" ∧
      getClientId none none (some "192.168.0.9") = "192.168.0.9" ∧
      getClientId none none none = "unknown") ∧
    (splitComma "1.2.3.4, 5.6.7.8").headD "" = "1.2.3.4" :=
  ⟨⟨by decide, by decide, by decide⟩,
    getClientId_derivation (some "10.0.0.7") (some "192.168.0.9")
      "1.2.3.4, 5.6.7.8" "10.0.0.7" "192.168.0.9" (by decide) (by decide) (by decide),
    by decide⟩

end NestLearning
